import Mathlib

/-!
Shallow embedding of `scraper.py` (repository `bana-ne/webcrawler_pub`).

Markup is modelled as a tree of nodes (`Node`); a parsed document
(`BeautifulSoup` object) is the list of its top-level nodes (`Page`).
BeautifulSoup lookups (`find`, `find_all`, `findChild`, `findChildren`,
`select`) become list operations over the pre-order traversal of the tree.
HTTP and filesystem effects are made explicit: every embedded function takes
the responses as an environment (`Env`), threads a filesystem value (`FS`)
and returns the list of externally visible events (`Trace`) it performs.
String primitives are re-implemented over `List Char` so that every
definition evaluates inside the kernel on concrete inputs.
-/

/-- An HTML node: an element with tag name, class list, other attributes and
children, or a text node. Mirrors what BeautifulSoup exposes of the markup. -/
inductive Node where
  | elem (tag : String) (classes : List String) (attrs : List (String × String)) (children : List Node)
  | txt (s : String)

/-- A parsed document: the top-level nodes of the markup. -/
abbrev Page := List Node

/-- The children of a node (empty for text nodes). -/
def Node.children : Node → List Node
  | .elem _ _ _ cs => cs
  | .txt _ => []

/-- The class list of a node (empty for text nodes). -/
def Node.classes : Node → List String
  | .elem _ cs _ _ => cs
  | .txt _ => []

/-- Whether the node is an element with the given tag name. -/
def Node.isTag (n : Node) (t : String) : Bool :=
  match n with
  | .elem t' _ _ _ => t' == t
  | .txt _ => false

/-- BeautifulSoup `class_="c"` matching: the string must be one of the
element's class tokens. -/
def Node.hasClass (n : Node) (c : String) : Bool :=
  n.classes.contains c

/-- Attribute lookup, `None` when absent (Python `tag.get(key)`). -/
def Node.attrOf (n : Node) (k : String) : Option String :=
  match n with
  | .elem _ _ as _ => (as.find? (fun p => p.1 == k)).map (fun p => p.2)
  | .txt _ => none

mutual
/-- Pre-order list of the element nodes of a subtree, the root included
when it is an element. -/
def Node.selfAndElems : Node → List Node
  | .elem t c a cs => .elem t c a cs :: elemsOfList cs
  | .txt _ => []

/-- Pre-order list of the element nodes of a forest. -/
def elemsOfList : List Node → List Node
  | [] => []
  | n :: ns => n.selfAndElems ++ elemsOfList ns
end

mutual
/-- BeautifulSoup `.text`: concatenation of all text found below a node. -/
def Node.text : Node → String
  | .elem _ _ _ cs => textOfList cs
  | .txt s => s

/-- Concatenated text of a forest of nodes. -/
def textOfList : List Node → String
  | [] => ""
  | n :: ns => n.text ++ textOfList ns
end

/-- Attribute rendering for `str(tag)`. -/
def renderAttrs : List (String × String) → String
  | [] => ""
  | (k, v) :: rest => " " ++ k ++ "=\"" ++ v ++ "\"" ++ renderAttrs rest

/-- Separator-joined concatenation (Python `sep.join(xs)`),
avoiding core string functions that do not reduce in the kernel. -/
def pyJoin (sep : String) : List String → String
  | [] => ""
  | [x] => x
  | x :: xs => x ++ sep ++ pyJoin sep xs

/-- Class-attribute rendering for `str(tag)`. -/
def renderClasses (cs : List String) : String :=
  if cs.isEmpty then "" else " class=\"" ++ pyJoin " " cs ++ "\""

mutual
/-- Python `str(tag)`: serialise the subtree back to markup text. -/
def renderNode : Node → String
  | .elem t cs as children =>
      "<" ++ t ++ renderClasses cs ++ renderAttrs as ++ ">" ++ renderNodes children ++ "</" ++ t ++ ">"
  | .txt s => s

/-- Serialisation of a forest of nodes. -/
def renderNodes : List Node → String
  | [] => ""
  | n :: ns => renderNode n ++ renderNodes ns
end

/-- `soup.find_all(...)` restricted to a Boolean filter: all matching
elements of the document in document order. -/
def findAllPage (p : Page) (f : Node → Bool) : List Node :=
  (elemsOfList p).filter f

/-- `soup.find(...)`: the first matching element of the document, if any. -/
def findPage (p : Page) (f : Node → Bool) : Option Node :=
  (findAllPage p f).head?

/-- `tag.findChildren(...)` / `tag.find_all(...)`: all matching descendants
of a node (the node itself excluded). -/
def findChildrenOf (n : Node) (f : Node → Bool) : List Node :=
  (elemsOfList n.children).filter f

/-- `tag.findChild(...)` / `tag.find(...)`: the first matching descendant. -/
def findChildOf (n : Node) (f : Node → Bool) : Option Node :=
  (findChildrenOf n f).head?

/-- Splitting worker over character lists. Each step consumes at least one
character, so fuel equal to the input length suffices; the recursion is on
the fuel so that concrete inputs reduce inside the kernel. -/
def splitChars (c0 : Char) (sepRest : List Char) : Nat → List Char → List Char → List (List Char)
  | _, [], acc => [acc.reverse]
  | 0, l, acc => [acc.reverse ++ l]
  | fuel + 1, c :: rest, acc =>
    if (c0 :: sepRest).isPrefixOf (c :: rest) then
      acc.reverse :: splitChars c0 sepRest fuel (rest.drop sepRest.length) []
    else splitChars c0 sepRest fuel rest (c :: acc)

/-- Python `s.split(sep)` for a nonempty separator (empty separator is
never passed by the script). -/
def pySplit (s sep : String) : List String :=
  match sep.data with
  | [] => [s]
  | c0 :: sepRest => (splitChars c0 sepRest s.data.length s.data []).map String.mk

/-- Python `s.split(sep, maxsplit)`. -/
def pySplitMax (s sep : String) (maxsplit : Nat) : List String :=
  let parts := pySplit s sep
  if parts.length ≤ maxsplit + 1 then parts
  else parts.take maxsplit ++ [pyJoin sep (parts.drop maxsplit)]

/-- Python `s.replace(old, new)` for a nonempty `old`. -/
def pyReplace (s old new : String) : String :=
  pyJoin new (pySplit s old)

/-- Python `str.strip()` (whitespace at both ends). -/
def pyStrip (s : String) : String :=
  String.mk (((s.data.dropWhile Char.isWhitespace).reverse.dropWhile Char.isWhitespace).reverse)

/-- Python `s.startswith(pre)`. -/
def pyStartsWith (s pre : String) : Bool :=
  pre.data.isPrefixOf s.data

/-- Python `s.endswith(suf)`. -/
def pyEndsWith (s suf : String) : Bool :=
  suf.data.reverse.isPrefixOf s.data.reverse

/-- Decimal digit parsing over characters. -/
def parseDigits : List Char → Option Nat
  | [] => none
  | cs =>
    if cs.all Char.isDigit then
      some (cs.foldl (fun n c => n * 10 + (c.toNat - 48)) 0)
    else none

/-- Python `int(s)` as far as the script exercises it: surrounding
whitespace tolerated, optional sign, failure when unparsable. -/
def pyInt (s : String) : Option Int :=
  match (pyStrip s).data with
  | '-' :: rest => (parseDigits rest).map (fun n => -(n : Int))
  | '+' :: rest => (parseDigits rest).map (fun n => (n : Int))
  | cs => (parseDigits cs).map (fun n => (n : Int))

/-- Decimal rendering worker: fuel-based so concrete inputs reduce. -/
def natDigits : Nat → Nat → List Char → List Char
  | 0, _, acc => acc
  | _ + 1, 0, acc => acc
  | fuel + 1, m, acc => natDigits fuel (m / 10) (Char.ofNat (48 + m % 10) :: acc)

/-- Python `str(n)` for a natural number. -/
def natStr (n : Nat) : String :=
  match n with
  | 0 => "0"
  | _ => String.mk (natDigits (n + 1) n [])

/-- Two-argument `os.path.join` (POSIX). -/
def pathJoin (a b : String) : String :=
  if pyStartsWith b "/" then b
  else if a = "" then b
  else if pyEndsWith a "/" then a ++ b
  else a ++ "/" ++ b

/-- The CSS selection `soup.select("tag.class")` for the two selector
shapes the script uses (`div.amscroll-load-button`,
`a.product-item-link`). -/
def cssSelect (sel : String) (p : Page) : List Node :=
  match pySplit sel "." with
  | [tag, cls] => findAllPage p (fun n => n.isTag tag && n.hasClass cls)
  | _ => []

/-- `url_domain` of `process_gedore` (scraper.py line 113). -/
def urlDomainOf (url : String) : String :=
  if pyStartsWith url "http" then pyJoin "/" ((pySplitMax url "/" 3).take 3)
  else ((pySplit url "/").headD "")

/-- An externally visible action of the script: an HTTP request issued with
`requests`, a `sleep` (duration in milliseconds), a line written to standard
output, or a browser-automation phase. -/
inductive Event where
  | httpGet (url : String)
  | sleep (ms : Nat)
  | stdout (s : String)
  | browser
deriving Repr, DecidableEq

/-- The sequence of events a run performs, in order. -/
abbrev Trace := List Event

/-- Whether the event is an HTTP request. -/
def Event.isGet : Event → Bool
  | .httpGet _ => true
  | _ => false

/-- Whether the event is a pause. -/
def Event.isSleep : Event → Bool
  | .sleep _ => true
  | _ => false

/-- The URLs of the HTTP requests of a trace, in order. -/
def getsOf : Trace → List String
  | [] => []
  | .httpGet u :: rest => u :: getsOf rest
  | _ :: rest => getsOf rest

/-- Whether a result is a success (`Except.ok`). -/
def isOkRes {α : Type} : Except String α → Bool
  | .ok _ => true
  | .error _ => false

/-- The filesystem as the script observes it: the set of directories known
to exist and the files written so far (path and content, newest first). -/
structure FS where
  dirs : List String
  files : List (String × String)
deriving Repr, DecidableEq

/-- `os.makedirs` guarded by `os.path.exists` (scraper.py lines 57-58
and 82-83). -/
def ensureDir (d : String) (fs : FS) : FS :=
  if fs.dirs.contains d then fs else { fs with dirs := d :: fs.dirs }

/-- An HTTP response to an image request: status code and raw content. -/
structure ImgResp where
  status : Nat
  content : String
deriving Repr, DecidableEq

/-- Outcome of one `button.click()` in the browser-automation loop of
`process_gedore`: success, `ElementNotInteractableException`, or some other
WebDriver exception carried with its name. -/
inductive ClickOutcome where
  | success
  | notInteractable
  | failure (e : String)
deriving Repr, DecidableEq

/-- All external inputs of a run: markup returned by `requests.get`, image
responses, the outcome of each browser click, the page source the browser
shows after the click loop, and whether the explicit `WebDriverWait`
succeeds. -/
structure Env where
  fetch : String → Page
  imgHttp : String → ImgResp
  clicks : Nat → ClickOutcome
  browserFinal : Nat → Page
  waitOk : Bool

/-- A pandas DataFrame as the script uses one: column names plus rows of
string cells. -/
structure DataFrame where
  columns : List String
  rows : List (List String)
deriving Repr, DecidableEq

/-- One CSV cell under pandas' default minimal quoting. -/
def csvCell (sep : String) (s : String) : String :=
  if s.data.contains '"' || s.data.contains '\n' || s.data.contains '\r'
      || (pySplit s sep).length > 1 then
    "\"" ++ pyReplace s "\"" "\"\"" ++ "\""
  else s

/-- `df.to_csv(sep=sep, index=False)`: header line, then one line per row,
each line terminated by a newline. -/
def renderCsv (sep : String) (df : DataFrame) : String :=
  pyJoin "\n" ((df.columns.map (csvCell sep) |> pyJoin sep)
    :: df.rows.map (fun r => pyJoin sep (r.map (csvCell sep)))) ++ "\n"

/-- `df2str` (scraper.py lines 28-29). -/
def df2str (df : DataFrame) (sep : String := "|") : String :=
  renderCsv sep df

/-- `write_data` (scraper.py lines 45-61): create the directory when absent,
write the rendered CSV, return the path written to. -/
def write_data (df : DataFrame) (file_name : String) (proj_dir : String)
    (sep : String) (fs : FS) : String × FS :=
  let fs1 := ensureDir proj_dir fs
  let csv_path := pathJoin proj_dir file_name
  (csv_path, { fs1 with files := (csv_path, renderCsv sep df) :: fs1.files })

/-- `save_img_from_url` (scraper.py lines 65-92): on HTTP 200 create the
directory when absent, write the body under the URL's last path segment and
return that path; otherwise warn and return `None`. -/
def save_img_from_url (imgHttp : String → ImgResp) (url : String) (outdir : String)
    (fs : FS) : Option String × FS × Trace :=
  let filename := pathJoin outdir ((pySplit url "/").getLastD "")
  let r := imgHttp url
  let tr : Trace := [.httpGet url, .sleep 10]
  if r.status == 200 then
    let fs1 := ensureDir outdir fs
    (some filename, { fs1 with files := (filename, r.content) :: fs1.files }, tr)
  else
    (none, fs, tr ++ [.stdout ("[WARNING:] Download for product image at url (" ++ url ++ ") failed.")])

/-- The image loop of `process_prod_page` (scraper.py lines 164-170):
download every image, keep the filenames of the successes, echo the product
URL on each failure, never abort. -/
def processImages (imgHttp : String → ImgResp) (outdir product_url : String) :
    List String → FS → List String × FS × Trace
  | [], fs => ([], fs, [])
  | img :: rest, fs =>
    let r := save_img_from_url imgHttp img outdir fs
    let t1 := match r.1 with
      | some _ => r.2.2
      | none => r.2.2 ++ [.stdout product_url]
    let tailRes := processImages imgHttp outdir product_url rest r.2.1
    ((match r.1 with | some f => [f] | none => []) ++ tailRes.1, tailRes.2.1, t1 ++ tailRes.2.2)

/-- `pd.DataFrame(rows, columns=cols)` over a list of rows: rows are padded
to the longest row; the column count must equal that width (else pandas
raises). An empty row list gives the empty frame. -/
def mkFrameRows (cols : List String) (rows : List (List String)) : Except String DataFrame :=
  match rows with
  | [] => .ok { columns := cols, rows := [] }
  | _ =>
    let width := (rows.map List.length).foldl max 0
    if width = cols.length then
      .ok { columns := cols, rows := rows.map (fun r => r ++ List.replicate (width - r.length) "") }
    else
      .error "AssertionError: columns passed, passed data had different columns"

/-- `pd.concat(frames)`: raises on an empty list, otherwise stacks rows. -/
def concatFrames (cols : List String) (frames : List DataFrame) : Except String DataFrame :=
  match frames with
  | [] => .error "ValueError: No objects to concatenate"
  | _ => .ok { columns := cols, rows := (frames.map DataFrame.rows).flatten }

/-- `content_columns` of `process_gedore` (scraper.py line 120). -/
def content_columns : List String := ["group", "info", "value"]

/-- The `for i, a in enumerate(...)` loop of `process_details` (scraper.py
lines 145-149): `tables[i]` raises `IndexError` past the end; each line of
the list text becomes one row of a per-table frame. -/
def detailTables (tables : List String) (i : Nat) : List Node → Except String (List DataFrame)
  | [] => .ok []
  | a :: rest => do
    let tab ← match tables.get? i with
      | none => .error "IndexError: list index out of range"
      | some t => pure t
    let cur_tab := (pySplit (pyStrip a.text) "\n").map (fun el => tab :: pySplit el ": ")
    let df ← mkFrameRows content_columns cur_tab
    let dfs ← detailTables tables (i + 1) rest
    .ok (df :: dfs)

/-- `process_details` (scraper.py lines 136-150): locate the accordion,
pair each header with the rows of its `gedore-list`, one frame per table,
concatenated. Missing markup surfaces as the Python exception it raises. -/
def process_details (bs_prod : Page) : Except String DataFrame := do
  let accordion ← match findPage bs_prod (fun n => n.isTag "div" && n.hasClass "product-accordion") with
    | none => .error "AttributeError: NoneType has no attribute findChild"
    | some a => pure a
  let html_list ← match findChildOf accordion (fun n => n.isTag "ul") with
    | none => .error "AttributeError: NoneType has no attribute findChildren"
    | some u => pure u
  let tables := (findChildrenOf html_list (fun n => n.isTag "a")).map (fun h => pyStrip h.text)
  let glists := findChildrenOf html_list (fun n => n.isTag "ul" && n.hasClass "gedore-list")
  let contents ← detailTables tables 0 glists
  concatFrames content_columns contents

/-- The slider-image URLs of a detail page (scraper.py line 163):
`url_domain + i["src"].split("?", 1)[0]` for every `img.slider-image`
carrying a `src`. -/
def sliderImgUrls (url_domain : String) (bs : Page) : List String :=
  (findAllPage bs
      (fun n => n.isTag "img" && n.hasClass "slider-image" && (n.attrOf "src").isSome)).map
    (fun n => url_domain ++ ((pySplitMax ((n.attrOf "src").getD "") "?" 1).headD ""))

/-- `process_prod_page` (scraper.py lines 152-183): fetch the detail page,
download its slider images when an image directory is given, then read the
labeled fields. A missing `price` span is replaced by the string "NA"
(line 173); missing `ean`, `description` or detail markup raises. Returns
`(ean, uvp, description, details, img_urls, downloaded_images)`. -/
def process_prod_page (env : Env) (url_domain : String) (img_dir : Option String)
    (product_url : String) (fs : FS) :
    Except String (String × String × String × String × List String × List String) × FS × Trace :=
  let cur_bs := env.fetch product_url
  let tr0 : Trace := [.httpGet product_url, .sleep 10]
  let img_urls := sliderImgUrls url_domain cur_bs
  let imgRes : List String × FS × Trace :=
    match img_dir with
    | some d => processImages env.imgHttp (pathJoin d "img") product_url img_urls fs
    | none => ([], fs, [])
  let downloaded_images := imgRes.1
  let fs1 := imgRes.2.1
  let tr1 := imgRes.2.2
  let uvp_prod := match findPage cur_bs (fun n => n.isTag "span" && n.hasClass "price") with
    | some n => pyStrip n.text
    | none => "NA"
  match findPage cur_bs (fun n => n.isTag "div" && n.hasClass "ean") with
  | none => (.error "AttributeError: NoneType has no attribute text", fs1, tr0 ++ tr1)
  | some eanEl =>
    let ean := pyStrip (pyReplace eanEl.text "EAN" "")
    match findPage cur_bs (fun n => n.isTag "div" && n.hasClass "description") with
    | none => (.error "AttributeError: NoneType has no attribute findChild", fs1, tr0 ++ tr1)
    | some descEl =>
      let description := match findChildOf descEl (fun n => n.isTag "ul") with
        | none => "None"
        | some u => renderNode u
      match process_details cur_bs with
      | .error e => (.error e, fs1, tr0 ++ tr1)
      | .ok detailsDf =>
        match img_dir with
        | some d =>
          let (details, fs2) := write_data detailsDf (ean ++ ".csv") (pathJoin d "csv") "|" fs1
          (.ok (ean, uvp_prod, description, details, img_urls, downloaded_images), fs2, tr0 ++ tr1)
        | none =>
          (.ok (ean, uvp_prod, description, df2str detailsDf, img_urls, downloaded_images), fs1, tr0 ++ tr1)

/-- `process_product_listing` (scraper.py lines 124-134): the four lists
read off one listing page. -/
def process_product_listing (bs_obj : Page) :
    List String × List String × List String × List String :=
  ((findAllPage bs_obj (fun n => n.isTag "div" && n.hasClass "article-description")).map
      (fun n => pyStrip n.text),
   (findAllPage bs_obj (fun n => n.isTag "span" && n.hasClass "code-number")).map
      (fun n => pyStrip n.text),
   (findAllPage bs_obj (fun n => n.isTag "span" && n.hasClass "article-number")).map
      (fun n => pyStrip n.text),
   (findAllPage bs_obj (fun n => n.isTag "a" && n.hasClass "teaser-link" && (n.attrOf "href").isSome)).map
      (fun n => (n.attrOf "href").getD ""))

/-- State of a fuel-bounded click loop: terminated normally, terminated by
a propagating exception, or still looping when the fuel ran out. -/
inductive LoopRes where
  | done (clicks : Nat)
  | err (e : String)
  | running (clicks : Nat)
deriving Repr, DecidableEq

/-- Whether the loop was still going when the fuel ran out. -/
def LoopRes.isRunning : LoopRes → Bool
  | .running _ => true
  | _ => false

/-- The "show more" click loop of `process_gedore` (scraper.py lines
199-207): click forever; `ElementNotInteractableException` breaks the loop;
any other exception propagates. The loop itself has no iteration bound, so
it is embedded with explicit fuel; `running` records that the fuel was
exhausted with the loop still active. -/
def gedoreClickLoop (clickEnv : Nat → ClickOutcome) (clicks : Nat) : Nat → LoopRes
  | 0 => .running clicks
  | fuel + 1 =>
    match clickEnv clicks with
    | .success => gedoreClickLoop clickEnv (clicks + 1) fuel
    | .notInteractable => .done clicks
    | .failure e => .err e

/-- The page-number URL template instantiated as on scraper.py line 229:
`url_page_format.format(url=url.split("?")[0], page=page, pagesize=pagesize)`. -/
def pageUrlFmt (base : String) (page : Nat) (pagesize : String) : String :=
  base ++ "?page=" ++ natStr page ++ "&pagesize=" ++ pagesize

/-- Reading the current page size (scraper.py line 224):
`bs.find("li", class_="selected").findChild("button", value=True)["value"]`,
with the Python exceptions of the `None` cases. -/
def pagesizeOf (bs : Page) : Except String String :=
  match findPage bs (fun n => n.isTag "li" && n.hasClass "selected") with
  | none => .error "AttributeError: NoneType has no attribute findChild"
  | some li =>
    match findChildOf li (fun n => n.isTag "button" && (n.attrOf "value").isSome) with
    | none => .error "TypeError: NoneType is not subscriptable"
    | some b => .ok ((b.attrOf "value").getD "")

/-- Reading the page count (scraper.py line 225):
`int(bs.find("li", class_="result-text").findChild("span").text.split(" von ")[1])`. -/
def pageNrOf (bs : Page) : Except String Int :=
  match findPage bs (fun n => n.isTag "li" && n.hasClass "result-text") with
  | none => .error "AttributeError: NoneType has no attribute findChild"
  | some li =>
    match findChildOf li (fun n => n.isTag "span") with
    | none => .error "AttributeError: NoneType has no attribute text"
    | some sp =>
      match (pySplit sp.text " von ").get? 1 with
      | none => .error "IndexError: list index out of range"
      | some s =>
        match pyInt s with
        | none => .error "ValueError: invalid literal for int"
        | some k => .ok k

/-- `range(1, page_nr + 1)` of the numbered-pages loop. -/
def pageNums (page_nr : Int) : List Nat :=
  List.range' 1 page_nr.toNat

/-- The numbered-pages fetch loop (scraper.py lines 228-231): fetch each
page URL in order, pausing after each request. -/
def fetchPages (env : Env) (base pagesize : String) : List Nat → List Page × Trace
  | [] => ([], [])
  | p :: rest =>
    let page_url := pageUrlFmt base p pagesize
    let tailRes := fetchPages env base pagesize rest
    (env.fetch page_url :: tailRes.1, [.httpGet page_url, .sleep 10] ++ tailRes.2)

/-- The listing-extraction loop over a list of pages (scraper.py lines
235-244): concatenate the four lists page by page. -/
def listingsOf : List Page → List String × List String × List String × List String
  | [] => ([], [], [], [])
  | p :: rest =>
    ((process_product_listing p).1 ++ (listingsOf rest).1,
     (process_product_listing p).2.1 ++ (listingsOf rest).2.1,
     (process_product_listing p).2.2.1 ++ (listingsOf rest).2.2.1,
     (process_product_listing p).2.2.2 ++ (listingsOf rest).2.2.2)

/-- The listing phase of `process_gedore` (scraper.py lines 185-246): fetch
the listing, pick the pagination mode by markup markers, and produce the
four accumulated listing columns together with the trace of the phase. -/
def processGedoreListing (env : Env) (url : String) (fuel : Nat) :
    Except String (List String × List String × List String × List String) × Trace :=
  let bs := env.fetch url
  let tr0 : Trace := [.httpGet url]
  if (findAllPage bs (fun n => n.isTag "a" && n.hasClass "show-more")).isEmpty = false then
    if env.waitOk = false then
      (.error "TimeoutException", tr0 ++ [.browser])
    else
      match gedoreClickLoop env.clicks 0 fuel with
      | .err e => (.error e, tr0 ++ [.browser])
      | .running _ => (.error "fuel exhausted: show-more loop still running", tr0 ++ [.browser])
      | .done k => (.ok (process_product_listing (env.browserFinal k)), tr0 ++ [.browser])
  else if (findPage bs (fun n => n.isTag "li" && n.hasClass "result-text")).isSome then
    match pagesizeOf bs with
    | .error e => (.error e, tr0)
    | .ok pagesize =>
      match pageNrOf bs with
      | .error e => (.error e, tr0)
      | .ok page_nr =>
        let base := (pySplit url "?").headD ""
        let fetched := fetchPages env base pagesize (pageNums page_nr)
        (.ok (listingsOf fetched.1), tr0 ++ fetched.2)
  else
    (.ok (process_product_listing bs), tr0)

/-- The per-product accumulator lists of `process_gedore` (scraper.py lines
250-255). -/
structure GedAcc where
  ean : List String
  uvp : List String
  description : List String
  details : List String
  product_img_urls : List String
  downloaded_imgs : List String
deriving Repr, DecidableEq

/-- The empty accumulator. -/
def GedAcc.empty : GedAcc := ⟨[], [], [], [], [], []⟩

/-- The product-page loop of `process_gedore` (scraper.py lines 256-263).
Lines 258-259 of the source run `ean.append(cur_ean)` and then
`ean.append(cur_uvp)`: the price is appended to the `ean` list and the
`uvp` list is never appended to. The embedding reproduces this verbatim. -/
def prodLoop (env : Env) (url_domain : String) (img_dir : Option String) :
    List String → GedAcc → FS → Except String GedAcc × FS × Trace
  | [], acc, fs => (.ok acc, fs, [])
  | product_url :: rest, acc, fs =>
    match process_prod_page env url_domain img_dir product_url fs with
    | (.error e, fs1, t1) => (.error e, fs1, t1)
    | (.ok (cur_ean, cur_uvp, cur_description, cur_details, cur_img_urls, cur_downloaded), fs1, t1) =>
      let acc1 : GedAcc :=
        { acc with
          ean := acc.ean ++ [cur_ean, cur_uvp],
          description := acc.description ++ [cur_description],
          details := acc.details ++ [cur_details],
          product_img_urls := acc.product_img_urls ++ [pyJoin " " cur_img_urls],
          downloaded_imgs := acc.downloaded_imgs ++ [pyJoin " " cur_downloaded] }
      let tailRes := prodLoop env url_domain img_dir rest acc1 fs1
      (tailRes.1, tailRes.2.1, t1 ++ tailRes.2.2)

/-- The `pd.DataFrame({...})` call of scraper.py line 265: the scalar
`manufacturer` broadcasts; every list must have one common length, else
pandas raises `ValueError`. -/
def mkGedoreFrame (manufacturer : String)
    (ean articlename articlenumber dkm uvp description details imgs dimgs : List String) :
    Except String DataFrame :=
  let L := ean.length
  if articlename.length == L && articlenumber.length == L && dkm.length == L
      && uvp.length == L && description.length == L && details.length == L
      && imgs.length == L && dimgs.length == L then
    .ok { columns := ["manufacturer", "ean-code", "articlename_manufacturer",
                      "articlenumber_manufacturer", "dkm-code", "uvp", "description",
                      "details", "product_img_urls", "downloaded_imgs"],
          rows := (List.range L).map (fun i =>
            [manufacturer, ean.getD i "", articlename.getD i "", articlenumber.getD i "",
             dkm.getD i "", uvp.getD i "", description.getD i "", details.getD i "",
             imgs.getD i "", dimgs.getD i ""]) }
  else
    .error "ValueError: All arrays must be of the same length"

/-- `process_gedore` (scraper.py lines 95-266): listing phase, product-page
loop, then the final DataFrame. -/
def process_gedore (env : Env) (url : String) (img_dir : Option String) (fuel : Nat)
    (fs : FS) : Except String DataFrame × FS × Trace :=
  match processGedoreListing env url fuel with
  | (.error e, tr) => (.error e, fs, tr)
  | (.ok (article_name, article_number, dkm_number, product_urls), tr) =>
    match prodLoop env (urlDomainOf url) img_dir product_urls GedAcc.empty fs with
    | (.error e, fs1, tr2) => (.error e, fs1, tr ++ tr2)
    | (.ok acc, fs1, tr2) =>
      (mkGedoreFrame "Gedore" acc.ean article_name article_number dkm_number acc.uvp
        acc.description acc.details acc.product_img_urls acc.downloaded_imgs, fs1, tr ++ tr2)

/-- The run tail of the script (scraper.py lines 400-401): `process_gedore`
followed by `write_data(..., sep=";")`; the value is the written table
content. -/
def writtenTable (env : Env) (url : String) (img_dir : Option String) (fuel : Nat)
    (fs : FS) : Except String String :=
  match process_gedore env url img_dir fuel fs with
  | (.error e, _, _) => .error e
  | (.ok df, _, _) => .ok (renderCsv ";" df)

/-- Result of the fuel-bounded scroll-and-click loop of `process_tooler`. -/
inductive ToolerRes where
  | done (urls : List String) (clicks : Nat)
  | err (e : String)
  | running (urls : List String) (clicks : Nat)
deriving Repr, DecidableEq

/-- Whether the tooler loop was still going when the fuel ran out. -/
def ToolerRes.isRunning : ToolerRes → Bool
  | .running _ _ => true
  | _ => false

/-- The link extraction of scraper.py line 314:
`bs.find_all('a', class_="a.product-item-link", href=True)` — note that the
CSS selector string is passed where a class token is expected. -/
def toolerLoopLinks (bs : Page) : List String :=
  (findAllPage bs (fun n => n.isTag "a" && n.hasClass "a.product-item-link" && (n.attrOf "href").isSome)).map
    (fun n => (n.attrOf "href").getD "")

/-- The exit check of scraper.py line 317:
`not bs.find_all('button', class_="div.amscroll-load-button")` — again the
CSS selector string is used as a class token, on a `button` tag. -/
def toolerExitCheck (bs : Page) : Bool :=
  (findAllPage bs (fun n => n.isTag "button" && n.hasClass "div.amscroll-load-button")).isEmpty

/-- The scroll-and-click loop of `process_tooler` (scraper.py lines
304-318): click (any exception propagates, nothing is caught), parse the
page source, append the links, and stop when the exit check finds nothing.
Embedded with explicit fuel since the loop has no iteration bound. -/
def toolerScrollLoop (clickEnv : Nat → Option String) (pages : Nat → Page)
    (product_urls : List String) (clicks : Nat) : Nat → ToolerRes
  | 0 => .running product_urls clicks
  | fuel + 1 =>
    match clickEnv clicks with
    | some e => .err e
    | none =>
      let bs := pages clicks
      let product_urls1 := product_urls ++ toolerLoopLinks bs
      let clicks1 := clicks + 1
      if toolerExitCheck bs then .done product_urls1 clicks1
      else toolerScrollLoop clickEnv pages product_urls1 clicks1 fuel

/-- Whether the last event of a trace is an HTTP request. -/
def lastNotGet (t : Trace) : Bool :=
  match t.getLast? with
  | some e => !e.isGet
  | none => true

/-- The adjacency condition "a request is immediately followed by a
pause". -/
def pausedRel (a b : Event) : Bool := !a.isGet || b.isSleep

/-- "A fixed short pause follows each network call": every HTTP request of
the trace is immediately followed by a `sleep` event (in particular the
trace does not end in a request). -/
def pausedAfterGets (t : Trace) : Prop :=
  List.Chain' (fun a b => pausedRel a b = true) t ∧ lastNotGet t = true

instance (t : Trace) : Decidable (pausedAfterGets t) :=
  inferInstanceAs (Decidable (List.Chain' (fun a b => pausedRel a b = true) t ∧ lastNotGet t = true))

lemma pausedAfterGets_nil : pausedAfterGets [] := by
  constructor
  · exact List.chain'_nil
  · rfl

lemma pausedAfterGets_append {t1 t2 : Trace}
    (h1 : pausedAfterGets t1) (h2 : pausedAfterGets t2) : pausedAfterGets (t1 ++ t2) := by
  constructor
  · rw [List.chain'_append]
    refine ⟨h1.1, h2.1, ?_⟩
    intro x hx y _
    have hx' : t1.getLast? = some x := hx
    have hlast := h1.2
    unfold lastNotGet at hlast
    rw [hx'] at hlast
    have hg : (!x.isGet) = true := hlast
    unfold pausedRel
    rw [hg, Bool.true_or]
  · cases t2 with
    | nil => simpa using h1.2
    | cons e rest =>
      have hl : (t1 ++ e :: rest).getLast? = (e :: rest).getLast? :=
        List.getLast?_append_of_ne_nil t1 (by simp)
      unfold lastNotGet
      rw [hl]
      have h22 := h2.2
      unfold lastNotGet at h22
      exact h22

lemma pausedAfterGets_chunk (u : String) (ms : Nat) :
    pausedAfterGets [.httpGet u, .sleep ms] := by
  constructor
  · exact List.chain'_cons.2 ⟨rfl, List.chain'_singleton _⟩
  · rfl

lemma pausedAfterGets_stdout (s : String) : pausedAfterGets [.stdout s] := by
  constructor
  · exact List.chain'_singleton _
  · rfl


/-- The empty filesystem. -/
def fs0 : FS := ⟨[], []⟩

/-- A one-product listing page: no "show more" anchor, no numbered-pages
marker, one teaser link with its three listing fields. -/
def listingPage1 : Page :=
  [Node.elem "div" ["article-description"] [] [Node.txt "Wrench"],
   Node.elem "span" ["code-number"] [] [Node.txt "A100"],
   Node.elem "span" ["article-number"] [] [Node.txt "D1"],
   Node.elem "a" ["teaser-link"] [("href", "https://g/p1")] []]

/-- A complete detail page: EAN, price, description list and detail table. -/
def prodPage1 : Page :=
  [Node.elem "div" ["ean"] [] [Node.txt "EAN 4010886000001"],
   Node.elem "span" ["price"] [] [Node.txt "56,00 EUR"],
   Node.elem "div" ["description"] [] [Node.elem "ul" [] [] [Node.elem "li" [] [] [Node.txt "good"]]],
   Node.elem "div" ["product-accordion"] [] [Node.elem "ul" [] []
     [Node.elem "a" [] [] [Node.txt "Tech"],
      Node.elem "ul" ["gedore-list"] [] [Node.txt "L: 1"]]]]

/-- Environment for a single-page run with one product. -/
def env1 : Env :=
  { fetch := fun u => if u == "https://g/list" then listingPage1
      else if u == "https://g/p1" then prodPage1 else [],
    imgHttp := fun _ => ⟨404, ""⟩,
    clicks := fun _ => .notInteractable,
    browserFinal := fun _ => [],
    waitOk := true }

/-- The detail page of `prodPage1` with the price span removed. -/
def prodPageNoPrice : Page :=
  [Node.elem "div" ["ean"] [] [Node.txt "EAN 4010886000001"],
   Node.elem "div" ["description"] [] [Node.elem "ul" [] [] [Node.elem "li" [] [] [Node.txt "good"]]],
   Node.elem "div" ["product-accordion"] [] [Node.elem "ul" [] []
     [Node.elem "a" [] [] [Node.txt "Tech"],
      Node.elem "ul" ["gedore-list"] [] [Node.txt "L: 1"]]]]

/-- Environment whose every fetch yields the price-less detail page. -/
def env6 : Env :=
  { fetch := fun _ => prodPageNoPrice,
    imgHttp := fun _ => ⟨404, ""⟩,
    clicks := fun _ => .notInteractable,
    browserFinal := fun _ => [],
    waitOk := true }

/-- Environment whose every fetch yields the empty page. -/
def envEmpty : Env :=
  { fetch := fun _ => [],
    imgHttp := fun _ => ⟨404, ""⟩,
    clicks := fun _ => .notInteractable,
    browserFinal := fun _ => [],
    waitOk := true }

/-- A click environment in which every click raises a WebDriver exception
other than `ElementNotInteractableException`. -/
def staleClicks : Nat → ClickOutcome := fun _ => .failure "StaleElementReferenceException"

/-- Environment for the "show more" mode whose clicks always raise
`StaleElementReferenceException`. -/
def envC3 : Env :=
  { fetch := fun _ => [Node.elem "a" ["show-more"] [] []],
    imgHttp := fun _ => ⟨404, ""⟩,
    clicks := staleClicks,
    browserFinal := fun _ => [],
    waitOk := true }

/-- A click environment in which every click succeeds. -/
def allSuccessClicks : Nat → ClickOutcome := fun _ => .success

/-- A page that keeps satisfying the tooler loop's literal exit check: a
`button` whose class attribute is the string `div.amscroll-load-button`. -/
def foreverControl : Page :=
  [Node.elem "button" ["div.amscroll-load-button"] [] []]

/-- A browser that shows `foreverControl` after every click. -/
def foreverPages : Nat → Page := fun _ => foreverControl

/-- A click environment for the tooler loop in which no click ever raises. -/
def noFailClicks : Nat → Option String := fun _ => none

/-- A page source that still contains the tooler load-more control (a `div`
with class `amscroll-load-button`, the element the CSS selector
`div.amscroll-load-button` matches) plus one product link. -/
def toolerControlPage : Page :=
  [Node.elem "div" ["amscroll-load-button"] [] [Node.txt "Mehr laden"],
   Node.elem "a" ["product-item-link"] [("href", "https://t/p1")] []]

/-- A listing page in numbered-pages mode: page size 24 selected, 2 pages
in total. -/
def listingPageNumbered : Page :=
  [Node.elem "li" ["selected"] [] [Node.elem "button" [] [("value", "24")] []],
   Node.elem "li" ["result-text"] [] [Node.elem "span" [] [] [Node.txt "1 von 2"]]]

/-- One listing page of the numbered traversal, carrying index `i`. -/
def numberedSubPage (name code dkm href : String) : Page :=
  [Node.elem "div" ["article-description"] [] [Node.txt name],
   Node.elem "span" ["code-number"] [] [Node.txt code],
   Node.elem "span" ["article-number"] [] [Node.txt dkm],
   Node.elem "a" ["teaser-link"] [("href", href)] []]

/-- Environment for a numbered-pages run over two listing pages. -/
def env7 : Env :=
  { fetch := fun u =>
      if u == "https://g/cat" then listingPageNumbered
      else if u == "https://g/cat?page=1&pagesize=24" then numberedSubPage "N1" "A1" "K1" "https://g/q1"
      else if u == "https://g/cat?page=2&pagesize=24" then numberedSubPage "N2" "A2" "K2" "https://g/q2"
      else [],
    imgHttp := fun _ => ⟨404, ""⟩,
    clicks := fun _ => .notInteractable,
    browserFinal := fun _ => [],
    waitOk := true }

/-- A copy of `env1` built from its projections, used to instantiate the
determinism theorem at two syntactically different environments. -/
def env9 : Env :=
  { fetch := fun u => env1.fetch u,
    imgHttp := fun u => env1.imgHttp u,
    clicks := fun k => env1.clicks k,
    browserFinal := fun k => env1.browserFinal k,
    waitOk := env1.waitOk }

/-- An image server that answers 200 with fixed bytes. -/
def imgHttp200 : String → ImgResp := fun _ => ⟨200, "bytes"⟩

/-- An image server that serves one of two URLs and fails the other. -/
def imgHttpMixed : String → ImgResp := fun u =>
  if u == "https://g/i/ok.png" then ⟨200, "okbytes"⟩ else ⟨503, ""⟩

/-- C1: the claim states that `process_gedore` returns one row per detail
page with the list price in the `uvp` column and the EAN code in the
`ean-code` column. The code instead runs `ean.append(cur_uvp)` (scraper.py
line 259), so the price lands in the `ean` list, the `uvp` list stays
empty, and the `pd.DataFrame` call of line 265 raises `ValueError` on any
run with at least one product. Evaluated here on a one-product run. -/
theorem claim_C1_price_misappended :
    (process_gedore env1 "https://g/list" none 5 fs0).1 =
      .error "ValueError: All arrays must be of the same length" ∧
    (prodLoop env1 (urlDomainOf "https://g/list") none ["https://g/p1"] GedAcc.empty fs0).1 =
      .ok { ean := ["4010886000001", "56,00 EUR"], uvp := [],
            description := ["<ul><li>good</li></ul>"],
            details := ["group|info|value\nTech|L|1\n"],
            product_img_urls := [""], downloaded_imgs := [""] } := by
  exact ⟨rfl, rfl⟩

/-- C2: the claim states that the tooler scroll loop continues while the
load-more control is present in the markup and exits exactly when it is
gone. The exit check of scraper.py line 317 passes the CSS selector string
`div.amscroll-load-button` as a class token on a `button` tag, so it never
finds the control (a `div` with class `amscroll-load-button`): on a page
source that still contains the control the loop exits after its first
iteration. The same slip on line 314 also keeps the loop from accumulating
the revealed product links. -/
theorem claim_C2_exit_check_never_sees_control :
    toolerScrollLoop noFailClicks (fun _ => toolerControlPage) [] 0 5 = .done [] 1 ∧
    (cssSelect "div.amscroll-load-button" toolerControlPage).length = 1 ∧
    (cssSelect "a.product-item-link" toolerControlPage).length = 1 ∧
    toolerLoopLinks toolerControlPage = [] := by
  exact ⟨rfl, rfl, rfl, rfl⟩

/-- C3 counterexample: a browser-interaction failure other than
`ElementNotInteractableException` (here `StaleElementReferenceException`)
does not terminate the "show more" click loop with the entries accumulated
so far: the loop result is the propagated exception, and the listing phase
of the run halts with that error. -/
theorem claim_C3_counterexample :
    gedoreClickLoop staleClicks 0 5 = .err "StaleElementReferenceException" ∧
    (∀ k, gedoreClickLoop staleClicks 0 5 ≠ LoopRes.done k) ∧
    (processGedoreListing envC3 "https://g/sm" 5).1 =
      .error "StaleElementReferenceException" := by
  refine ⟨rfl, ?_, rfl⟩
  intro k h
  rw [show gedoreClickLoop staleClicks 0 5 = .err "StaleElementReferenceException" from rfl] at h
  exact LoopRes.noConfusion h

/-- C6 counterexample: a detail page whose price markup is absent (all
other expected fields present) does not halt the run; the extraction
succeeds and the price field carries the placeholder string "NA". -/
theorem claim_C6_counterexample :
    (process_prod_page env6 "https://g" none "https://g/p1" fs0).1 =
      .ok ("4010886000001", "NA", "<ul><li>good</li></ul>",
           "group|info|value\nTech|L|1\n", [], []) := by
  exact rfl

/-- C8 counterexample: on a single-page run the initial listing fetch is
immediately followed by the first product-page request, with no pause in
between — not every HTTP call of `process_gedore` is followed by a fixed
short pause. -/
theorem claim_C8_counterexample :
    (process_gedore env1 "https://g/list" none 5 fs0).2.2 =
      [.httpGet "https://g/list", .httpGet "https://g/p1", .sleep 10] ∧
    ¬ pausedAfterGets
      [.httpGet "https://g/list", .httpGet "https://g/p1", .sleep 10] := by
  refine ⟨rfl, ?_⟩
  intro h
  have h1 := (List.chain'_cons.mp h.1).1
  exact Bool.noConfusion h1

/-- C3 amended: in the "show more" loop of `process_gedore` only
`ElementNotInteractableException` terminates the click loop (the run then
continues with the entries accumulated so far); any other
browser-interaction failure propagates as an error and halts the run. -/
theorem claim_C3_only_not_interactable_breaks (clickEnv : Nat → ClickOutcome)
    (clicks fuel : Nat) :
    (clickEnv clicks = ClickOutcome.notInteractable →
      gedoreClickLoop clickEnv clicks (fuel + 1) = .done clicks) ∧
    (∀ e, clickEnv clicks = ClickOutcome.failure e →
      gedoreClickLoop clickEnv clicks (fuel + 1) = .err e) := by
  constructor
  · intro h
    simp [gedoreClickLoop, h]
  · intro e h
    simp [gedoreClickLoop, h]

/-- Witness for `claim_C3_only_not_interactable_breaks`: both branches
instantiated on constant click environments. -/
theorem claim_C3_witness :
    gedoreClickLoop (fun _ => ClickOutcome.notInteractable) 0 4 = .done 0 ∧
    gedoreClickLoop (fun _ => ClickOutcome.failure "WebDriverException") 0 4 =
      .err "WebDriverException" :=
  ⟨(claim_C3_only_not_interactable_breaks (fun _ => ClickOutcome.notInteractable) 0 3).1 rfl,
   (claim_C3_only_not_interactable_breaks (fun _ => ClickOutcome.failure "WebDriverException") 0 3).2
     "WebDriverException" rfl⟩

/-- C4: neither pagination click loop enforces a maximum iteration count.
In the environment `allSuccessClicks` (every click succeeds, none raises)
the "show more" loop of `process_gedore` is still running after any number
of iterations, and in the environment `foreverPages`/`noFailClicks` (the
exit markup condition never holds and no click fails) the scroll loop of
`process_tooler` likewise never terminates. -/
theorem claim_C4_no_iteration_cap :
    (∀ fuel clicks, (gedoreClickLoop allSuccessClicks clicks fuel).isRunning = true) ∧
    (∀ fuel urls clicks,
      (toolerScrollLoop noFailClicks foreverPages urls clicks fuel).isRunning = true) := by
  constructor
  · intro fuel
    induction fuel with
    | zero => intro clicks; rfl
    | succ n ih => intro clicks; exact ih (clicks + 1)
  · intro fuel
    induction fuel with
    | zero => intro urls clicks; rfl
    | succ n ih => intro urls clicks; exact ih (urls ++ toolerLoopLinks foreverControl) (clicks + 1)

lemma getsOf_append (t1 t2 : Trace) : getsOf (t1 ++ t2) = getsOf t1 ++ getsOf t2 := by
  induction t1 with
  | nil => rfl
  | cons e rest ih => cases e <;> simp [getsOf, ih]

lemma save_img_fail (imgHttp : String → ImgResp) (url outdir : String) (fs : FS)
    (h : (imgHttp url).status ≠ 200) :
    save_img_from_url imgHttp url outdir fs =
      (none, fs, [.httpGet url, .sleep 10,
        .stdout ("[WARNING:] Download for product image at url (" ++ url ++ ") failed.")]) := by
  have hb : ((imgHttp url).status == 200) = false := by simpa using h
  simp [save_img_from_url, hb]

lemma processImages_gets (imgHttp : String → ImgResp) (outdir pu : String) :
    ∀ (urls : List String) (fs : FS),
      getsOf (processImages imgHttp outdir pu urls fs).2.2 = urls := by
  intro urls
  induction urls with
  | nil => intro fs; rfl
  | cons u rest ih =>
    intro fs
    by_cases h : (imgHttp u).status == 200 <;>
      simp [processImages, save_img_from_url, h, getsOf, getsOf_append, ih]

lemma processImages_downloaded (imgHttp : String → ImgResp) (outdir pu : String) :
    ∀ (urls : List String) (fs : FS),
      (processImages imgHttp outdir pu urls fs).1 =
        (urls.filter (fun u => (imgHttp u).status == 200)).map
          (fun u => pathJoin outdir ((pySplit u "/").getLastD "")) := by
  intro urls
  induction urls with
  | nil => intro fs; rfl
  | cons u rest ih =>
    intro fs
    by_cases h : (imgHttp u).status == 200 <;>
      simp [processImages, save_img_from_url, h, ih]

lemma prodPage_isOk_indep (env : Env) (h2 : String → ImgResp) (ud : String)
    (imgdir : Option String) (pu : String) (fsa fsb : FS) :
    isOkRes (process_prod_page env ud imgdir pu fsa).1 =
    isOkRes (process_prod_page { env with imgHttp := h2 } ud imgdir pu fsb).1 := by
  unfold process_prod_page
  dsimp only
  cases findPage (env.fetch pu) (fun n => n.isTag "div" && n.hasClass "ean") <;>
  cases findPage (env.fetch pu) (fun n => n.isTag "div" && n.hasClass "description") <;>
  cases process_details (env.fetch pu) <;>
  cases imgdir <;> rfl

lemma prodLoop_isOk_indep (env : Env) (h2 : String → ImgResp) (ud : String)
    (imgdir : Option String) :
    ∀ (urls : List String) (acc1 acc2 : GedAcc) (fsa fsb : FS),
      isOkRes (prodLoop env ud imgdir urls acc1 fsa).1 =
      isOkRes (prodLoop { env with imgHttp := h2 } ud imgdir urls acc2 fsb).1 := by
  intro urls
  induction urls with
  | nil => intro acc1 acc2 fsa fsb; rfl
  | cons pu rest ih =>
    intro acc1 acc2 fsa fsb
    have hok := prodPage_isOk_indep env h2 ud imgdir pu fsa fsb
    rcases hA : process_prod_page env ud imgdir pu fsa with ⟨ra, fsa1, ta⟩
    rcases hB : process_prod_page { env with imgHttp := h2 } ud imgdir pu fsb with ⟨rb, fsb1, tb⟩
    rw [hA, hB] at hok
    unfold prodLoop
    rw [hA, hB]
    cases ra with
    | error e =>
      cases rb with
      | error e2 => rfl
      | ok vb => exact absurd hok (by simp [isOkRes])
    | ok va =>
      cases rb with
      | error e2 => exact absurd hok (by simp [isOkRes])
      | ok vb =>
        obtain ⟨a1, b1, c1, d1, e1, f1⟩ := va
        obtain ⟨a2, b2, c2, d2, e2', f2⟩ := vb
        exact ih _ _ _ _

/-- C5: an image download whose HTTP status is not 200 makes
`save_img_from_url` log a warning and return `None` with the filesystem
untouched; the image loop still requests every image of the page and keeps
exactly the successful filenames; and whether any image download fails has
no influence on whether the product-page loop of `process_gedore`
succeeds. -/
theorem claim_C5_image_failure_skipped :
    (∀ (imgHttp : String → ImgResp) (url outdir : String) (fs : FS),
      (imgHttp url).status ≠ 200 →
      save_img_from_url imgHttp url outdir fs =
        (none, fs, [.httpGet url, .sleep 10,
          .stdout ("[WARNING:] Download for product image at url (" ++ url ++ ") failed.")])) ∧
    (∀ (imgHttp : String → ImgResp) (outdir pu : String) (urls : List String) (fs : FS),
      getsOf (processImages imgHttp outdir pu urls fs).2.2 = urls) ∧
    (∀ (imgHttp : String → ImgResp) (outdir pu : String) (urls : List String) (fs : FS),
      (processImages imgHttp outdir pu urls fs).1 =
        (urls.filter (fun u => (imgHttp u).status == 200)).map
          (fun u => pathJoin outdir ((pySplit u "/").getLastD ""))) ∧
    (∀ (env : Env) (h2 : String → ImgResp) (ud : String) (imgdir : Option String)
        (urls : List String) (acc1 acc2 : GedAcc) (fsa fsb : FS),
      isOkRes (prodLoop env ud imgdir urls acc1 fsa).1 =
      isOkRes (prodLoop { env with imgHttp := h2 } ud imgdir urls acc2 fsb).1) := by
  refine ⟨save_img_fail, processImages_gets, processImages_downloaded, ?_⟩
  intro env h2 ud imgdir urls acc1 acc2 fsa fsb
  exact prodLoop_isOk_indep env h2 ud imgdir urls acc1 acc2 fsa fsb

/-- Witness for `claim_C5_image_failure_skipped`: one failing download
(warning, no file, `None`), one mixed two-image page where both images are
requested and only the success is kept, and one product loop run whose
success is unchanged when every image request is made to succeed. -/
theorem claim_C5_witness :
    save_img_from_url imgHttpMixed "https://g/i/bad.png" "out" fs0 =
      (none, fs0, [.httpGet "https://g/i/bad.png", .sleep 10,
        .stdout "[WARNING:] Download for product image at url (https://g/i/bad.png) failed."]) ∧
    getsOf (processImages imgHttpMixed "out" "https://g/p1"
        ["https://g/i/ok.png", "https://g/i/bad.png"] fs0).2.2 =
      ["https://g/i/ok.png", "https://g/i/bad.png"] ∧
    (processImages imgHttpMixed "out" "https://g/p1"
        ["https://g/i/ok.png", "https://g/i/bad.png"] fs0).1 = ["out/ok.png"] ∧
    isOkRes (prodLoop env1 "https://g" (some "data") ["https://g/p1"] GedAcc.empty fs0).1 =
      isOkRes (prodLoop { env1 with imgHttp := imgHttp200 } "https://g" (some "data")
        ["https://g/p1"] GedAcc.empty fs0).1 := by
  refine ⟨?_, ?_, ?_, ?_⟩
  · exact (claim_C5_image_failure_skipped.1 imgHttpMixed "https://g/i/bad.png" "out" fs0
      (by decide)).trans (by rfl)
  · exact claim_C5_image_failure_skipped.2.1 imgHttpMixed "out" "https://g/p1"
      ["https://g/i/ok.png", "https://g/i/bad.png"] fs0
  · exact (claim_C5_image_failure_skipped.2.2.1 imgHttpMixed "out" "https://g/p1"
      ["https://g/i/ok.png", "https://g/i/bad.png"] fs0).trans (by rfl)
  · exact claim_C5_image_failure_skipped.2.2.2 env1 imgHttp200 "https://g" (some "data")
      ["https://g/p1"] GedAcc.empty GedAcc.empty fs0 fs0

/-- C10: on HTTP status 200, `save_img_from_url` creates the output
directory when it does not exist, writes the response body to the join of
the output directory and the URL's last `/`-separated segment (keeping the
remote name), and returns exactly that path. -/
theorem claim_C10_save_success (imgHttp : String → ImgResp) (url outdir : String) (fs : FS)
    (h : (imgHttp url).status = 200) :
    save_img_from_url imgHttp url outdir fs =
      (some (pathJoin outdir ((pySplit url "/").getLastD "")),
       { dirs := if fs.dirs.contains outdir then fs.dirs else outdir :: fs.dirs,
         files := (pathJoin outdir ((pySplit url "/").getLastD ""), (imgHttp url).content) :: fs.files },
       [.httpGet url, .sleep 10]) := by
  have hb : ((imgHttp url).status == 200) = true := by simpa using h
  by_cases hc : outdir ∈ fs.dirs <;>
    simp [save_img_from_url, ensureDir, hb, hc]

/-- Witness for `claim_C10_save_success`: a 200 download lands under the
remote file's original name inside the created directory. -/
theorem claim_C10_witness :
    save_img_from_url imgHttp200 "https://g/i/x.png" "out" fs0 =
      (some "out/x.png", ⟨["out"], [("out/x.png", "bytes")]⟩,
       [.httpGet "https://g/i/x.png", .sleep 10]) := by
  have h := claim_C10_save_success imgHttp200 "https://g/i/x.png" "out" fs0 rfl
  exact h.trans (by rfl)

/-- The price field of a product-page extraction result. -/
def uvpOf : Except String (String × String × String × String × List String × List String) →
    Option String
  | .ok t => some t.2.1
  | .error _ => none

/-- C6 amended: a detail page with absent `ean`, `description` or detail
markup makes `process_prod_page` fail, and that error propagates; an absent
`price` span alone does not fail — the price field is silently replaced by
the placeholder "NA". -/
theorem claim_C6_missing_markup (env : Env) (ud : String) (imgdir : Option String)
    (pu : String) (fs : FS) :
    (findPage (env.fetch pu) (fun n => n.isTag "div" && n.hasClass "ean") = none →
      isOkRes (process_prod_page env ud imgdir pu fs).1 = false) ∧
    (∀ eanEl, findPage (env.fetch pu) (fun n => n.isTag "div" && n.hasClass "ean") = some eanEl →
      findPage (env.fetch pu) (fun n => n.isTag "div" && n.hasClass "description") = none →
      isOkRes (process_prod_page env ud imgdir pu fs).1 = false) ∧
    (∀ eanEl descEl e,
      findPage (env.fetch pu) (fun n => n.isTag "div" && n.hasClass "ean") = some eanEl →
      findPage (env.fetch pu) (fun n => n.isTag "div" && n.hasClass "description") = some descEl →
      process_details (env.fetch pu) = .error e →
      (process_prod_page env ud imgdir pu fs).1 = .error e) ∧
    (∀ eanEl descEl df,
      findPage (env.fetch pu) (fun n => n.isTag "span" && n.hasClass "price") = none →
      findPage (env.fetch pu) (fun n => n.isTag "div" && n.hasClass "ean") = some eanEl →
      findPage (env.fetch pu) (fun n => n.isTag "div" && n.hasClass "description") = some descEl →
      process_details (env.fetch pu) = .ok df →
      uvpOf (process_prod_page env ud imgdir pu fs).1 = some "NA") := by
  refine ⟨?_, ?_, ?_, ?_⟩
  · intro h1
    cases imgdir <;> simp [process_prod_page, h1, isOkRes]
  · intro eanEl h1 h2
    cases imgdir <;> simp [process_prod_page, h1, h2, isOkRes]
  · intro eanEl descEl e h1 h2 h3
    cases imgdir <;> simp [process_prod_page, h1, h2, h3]
  · intro eanEl descEl df hp h1 h2 h3
    cases imgdir <;> simp [process_prod_page, hp, h1, h2, h3, uvpOf]

/-- Witness for `claim_C6_missing_markup`: a page with no markup at all
fails, and the price-less page `prodPageNoPrice` succeeds with "NA". -/
theorem claim_C6_witness :
    isOkRes (process_prod_page envEmpty "https://g" none "https://g/p1" fs0).1 = false ∧
    uvpOf (process_prod_page env6 "https://g" none "https://g/p1" fs0).1 = some "NA" :=
  ⟨(claim_C6_missing_markup envEmpty "https://g" none "https://g/p1" fs0).1 rfl,
   (claim_C6_missing_markup env6 "https://g" none "https://g/p1" fs0).2.2.2
     (Node.elem "div" ["ean"] [] [Node.txt "EAN 4010886000001"])
     (Node.elem "div" ["description"] [] [Node.elem "ul" [] [] [Node.elem "li" [] [] [Node.txt "good"]]])
     { columns := content_columns, rows := [["Tech", "L", "1"]] }
     rfl rfl rfl rfl⟩

/-- C9: the extraction and writing pipeline is deterministic in its
external inputs: two runs of `process_gedore` (and the written table
content) over environments that answer every request identically produce
identical results. -/
theorem claim_C9_deterministic (e1 e2 : Env) (url : String) (imgdir : Option String)
    (fuel : Nat) (fs : FS)
    (hf : ∀ u, e1.fetch u = e2.fetch u)
    (hi : ∀ u, e1.imgHttp u = e2.imgHttp u)
    (hc : ∀ k, e1.clicks k = e2.clicks k)
    (hb : ∀ k, e1.browserFinal k = e2.browserFinal k)
    (hw : e1.waitOk = e2.waitOk) :
    writtenTable e1 url imgdir fuel fs = writtenTable e2 url imgdir fuel fs ∧
    process_gedore e1 url imgdir fuel fs = process_gedore e2 url imgdir fuel fs := by
  have he : e1 = e2 := by
    obtain ⟨f1, i1, c1, b1, w1⟩ := e1
    obtain ⟨f2, i2, c2, b2, w2⟩ := e2
    simp only at hf hi hc hb hw
    have h1 : f1 = f2 := funext hf
    have h2 : i1 = i2 := funext hi
    have h3 : c1 = c2 := funext hc
    have h4 : b1 = b2 := funext hb
    subst h1; subst h2; subst h3; subst h4; subst hw
    rfl
  subst he
  exact ⟨rfl, rfl⟩

/-- Witness for `claim_C9_deterministic`: `env9` returns the same response
as `env1` for every request, and the two runs coincide. -/
theorem claim_C9_witness :
    writtenTable env1 "https://g/list" none 5 fs0 =
      writtenTable env9 "https://g/list" none 5 fs0 ∧
    process_gedore env1 "https://g/list" none 5 fs0 =
      process_gedore env9 "https://g/list" none 5 fs0 :=
  claim_C9_deterministic env1 env9 "https://g/list" none 5 fs0
    (fun _ => rfl) (fun _ => rfl) (fun _ => rfl) (fun _ => rfl) rfl

lemma fetchPages_eq (env : Env) (base psz : String) :
    ∀ ps : List Nat, fetchPages env base psz ps =
      (ps.map (fun p => env.fetch (pageUrlFmt base p psz)),
       (ps.map (fun p => [Event.httpGet (pageUrlFmt base p psz), Event.sleep 10])).flatten) := by
  intro ps
  induction ps with
  | nil => rfl
  | cons p rest ih => simp [fetchPages, ih]

lemma listingsOf_eq :
    ∀ pgs : List Page, listingsOf pgs =
      ((pgs.map (fun pg => (process_product_listing pg).1)).flatten,
       (pgs.map (fun pg => (process_product_listing pg).2.1)).flatten,
       (pgs.map (fun pg => (process_product_listing pg).2.2.1)).flatten,
       (pgs.map (fun pg => (process_product_listing pg).2.2.2)).flatten) := by
  intro pgs
  induction pgs with
  | nil => rfl
  | cons p rest ih => simp [listingsOf, ih]

lemma getsOf_getSleepFlatten (f : Nat → String) :
    ∀ ps : List Nat,
      getsOf ((ps.map (fun p => [Event.httpGet (f p), Event.sleep 10])).flatten) = ps.map f := by
  intro ps
  induction ps with
  | nil => rfl
  | cons p rest ih => simp [getsOf, getsOf_append, ih]

/-- C7: in the numbered-pages mode of `process_gedore` (no "show more"
control, a `result-text` marker present, page size and page count read off
the listing markup) the run requests exactly the listing URL followed by
the page URLs for pages 1 through N in increasing order, each formed by
substituting page number and page size into
`url.split("?")[0] + "?page=" + page + "&pagesize=" + pagesize`, and the
four listing columns (product links included) are the page-wise
concatenation in page order. -/
theorem claim_C7_numbered_pages (env : Env) (url : String) (fuel : Nat)
    (pagesize : String) (n : Nat)
    (h0 : findAllPage (env.fetch url) (fun nd => nd.isTag "a" && nd.hasClass "show-more") = [])
    (h1 : (findPage (env.fetch url)
        (fun nd => nd.isTag "li" && nd.hasClass "result-text")).isSome = true)
    (h2 : pagesizeOf (env.fetch url) = .ok pagesize)
    (h3 : pageNrOf (env.fetch url) = .ok (n : Int)) :
    getsOf (processGedoreListing env url fuel).2 =
      url :: (List.range' 1 n).map
        (fun p => pageUrlFmt ((pySplit url "?").headD "") p pagesize) ∧
    (processGedoreListing env url fuel).1 =
      .ok ((((List.range' 1 n).map (fun p =>
              pageUrlFmt ((pySplit url "?").headD "") p pagesize)).map
            (fun pu => (process_product_listing (env.fetch pu)).1)).flatten,
           (((List.range' 1 n).map (fun p =>
              pageUrlFmt ((pySplit url "?").headD "") p pagesize)).map
            (fun pu => (process_product_listing (env.fetch pu)).2.1)).flatten,
           (((List.range' 1 n).map (fun p =>
              pageUrlFmt ((pySplit url "?").headD "") p pagesize)).map
            (fun pu => (process_product_listing (env.fetch pu)).2.2.1)).flatten,
           (((List.range' 1 n).map (fun p =>
              pageUrlFmt ((pySplit url "?").headD "") p pagesize)).map
            (fun pu => (process_product_listing (env.fetch pu)).2.2.2)).flatten) := by
  have hmain : processGedoreListing env url fuel =
      (.ok (listingsOf ((List.range' 1 n).map
          (fun p => env.fetch (pageUrlFmt ((pySplit url "?").headD "") p pagesize)))),
       Event.httpGet url ::
         (((List.range' 1 n).map (fun p =>
            [Event.httpGet (pageUrlFmt ((pySplit url "?").headD "") p pagesize),
             Event.sleep 10])).flatten)) := by
    simp only [processGedoreListing]
    rw [h0, h2, h3]
    simp [h1, pageNums, fetchPages_eq]
  constructor
  · rw [hmain]
    simp only [getsOf]
    rw [getsOf_getSleepFlatten]
  · rw [hmain]
    rw [listingsOf_eq]
    simp only [List.map_map]
    rfl

/-- Witness for `claim_C7_numbered_pages`: a two-page numbered listing is
fetched page 1 then page 2, and the listing columns concatenate in page
order. -/
theorem claim_C7_witness :
    getsOf (processGedoreListing env7 "https://g/cat" 0).2 =
      ["https://g/cat", "https://g/cat?page=1&pagesize=24",
       "https://g/cat?page=2&pagesize=24"] ∧
    (processGedoreListing env7 "https://g/cat" 0).1 =
      .ok (["N1", "N2"], ["A1", "A2"], ["K1", "K2"], ["https://g/q1", "https://g/q2"]) := by
  have h := claim_C7_numbered_pages env7 "https://g/cat" 0 "24" 2 rfl rfl rfl rfl
  exact ⟨h.1.trans (by rfl), h.2.trans (by rfl)⟩

lemma saveImg_trace_paused (imgHttp : String → ImgResp) (u outdir : String) (fs : FS) :
    pausedAfterGets (save_img_from_url imgHttp u outdir fs).2.2 := by
  by_cases h : ((imgHttp u).status == 200) = true
  · simp only [save_img_from_url, h, if_true]
    exact pausedAfterGets_chunk u 10
  · simp only [save_img_from_url, h, if_false]
    exact pausedAfterGets_append (pausedAfterGets_chunk u 10) (pausedAfterGets_stdout _)

lemma processImages_trace_paused (imgHttp : String → ImgResp) (outdir pu : String) :
    ∀ (urls : List String) (fs : FS),
      pausedAfterGets (processImages imgHttp outdir pu urls fs).2.2 := by
  intro urls
  induction urls with
  | nil => intro fs; exact pausedAfterGets_nil
  | cons u rest ih =>
    intro fs
    have hs := saveImg_trace_paused imgHttp u outdir fs
    simp only [processImages]
    refine pausedAfterGets_append ?_ (ih _)
    cases h1 : (save_img_from_url imgHttp u outdir fs).1 with
    | some f => exact hs
    | none => exact pausedAfterGets_append hs (pausedAfterGets_stdout pu)

lemma prodPage_trace_shape (env : Env) (ud : String) (imgdir : Option String)
    (pu : String) (fs : FS) :
    (process_prod_page env ud imgdir pu fs).2.2 =
      [Event.httpGet pu, Event.sleep 10] ++
        (match imgdir with
         | some d => (processImages env.imgHttp (pathJoin d "img") pu
             (sliderImgUrls ud (env.fetch pu)) fs).2.2
         | none => []) := by
  unfold process_prod_page
  dsimp only
  cases findPage (env.fetch pu) (fun n => n.isTag "div" && n.hasClass "ean") <;>
  cases findPage (env.fetch pu) (fun n => n.isTag "div" && n.hasClass "description") <;>
  cases process_details (env.fetch pu) <;>
  cases imgdir <;> rfl

lemma prodPage_trace_paused (env : Env) (ud : String) (imgdir : Option String)
    (pu : String) (fs : FS) :
    pausedAfterGets (process_prod_page env ud imgdir pu fs).2.2 := by
  rw [prodPage_trace_shape]
  refine pausedAfterGets_append (pausedAfterGets_chunk pu 10) ?_
  cases imgdir with
  | none => exact pausedAfterGets_nil
  | some d => exact processImages_trace_paused env.imgHttp (pathJoin d "img") pu _ fs

lemma prodLoop_trace_paused (env : Env) (ud : String) (imgdir : Option String) :
    ∀ (urls : List String) (acc : GedAcc) (fs : FS),
      pausedAfterGets (prodLoop env ud imgdir urls acc fs).2.2 := by
  intro urls
  induction urls with
  | nil => intro acc fs; exact pausedAfterGets_nil
  | cons pu rest ih =>
    intro acc fs
    have hta := prodPage_trace_paused env ud imgdir pu fs
    rcases hA : process_prod_page env ud imgdir pu fs with ⟨ra, fsa1, ta⟩
    rw [hA] at hta
    unfold prodLoop
    rw [hA]
    cases ra with
    | error e => exact hta
    | ok va =>
      obtain ⟨a1, b1, c1, d1, e1, f1⟩ := va
      exact pausedAfterGets_append hta (ih _ _)

lemma pausedAfterGets_browser : pausedAfterGets [Event.browser] := by
  constructor
  · exact List.chain'_singleton _
  · rfl

lemma listing_trace_shape (env : Env) (url : String) (fuel : Nat) :
    ∃ r, (processGedoreListing env url fuel).2 = Event.httpGet url :: r ∧ pausedAfterGets r := by
  simp only [processGedoreListing]
  by_cases h0 : (findAllPage (env.fetch url)
      (fun nd => nd.isTag "a" && nd.hasClass "show-more")).isEmpty = false
  · rw [if_pos h0]
    by_cases hw : env.waitOk = false
    · rw [if_pos hw]
      exact ⟨[Event.browser], rfl, pausedAfterGets_browser⟩
    · rw [if_neg hw]
      cases gedoreClickLoop env.clicks 0 fuel with
      | err e => exact ⟨[Event.browser], rfl, pausedAfterGets_browser⟩
      | running k => exact ⟨[Event.browser], rfl, pausedAfterGets_browser⟩
      | done k => exact ⟨[Event.browser], rfl, pausedAfterGets_browser⟩
  · rw [if_neg h0]
    by_cases h1 : (findPage (env.fetch url)
        (fun nd => nd.isTag "li" && nd.hasClass "result-text")).isSome = true
    · rw [if_pos h1]
      cases h2 : pagesizeOf (env.fetch url) with
      | error e => exact ⟨[], rfl, pausedAfterGets_nil⟩
      | ok psz =>
        cases h3 : pageNrOf (env.fetch url) with
        | error e => exact ⟨[], rfl, pausedAfterGets_nil⟩
        | ok pnr =>
          refine ⟨(fetchPages env ((pySplit url "?").headD "") psz (pageNums pnr)).2, rfl, ?_⟩
          rw [fetchPages_eq]
          induction pageNums pnr with
          | nil => exact pausedAfterGets_nil
          | cons p rest ih =>
            simp only [List.map_cons, List.flatten_cons]
            exact pausedAfterGets_append (pausedAfterGets_chunk _ 10) ih
    · rw [if_neg h1]
      exact ⟨[], rfl, pausedAfterGets_nil⟩

/-- C8 amended: in every run of `process_gedore` — whichever pagination
mode the listing markup selects — every HTTP call except the initial
listing fetch is immediately followed by a fixed short pause: the trace
starts with the listing request and its entire tail satisfies
`pausedAfterGets` (each numbered-page fetch, each product-page fetch and
each image download being followed by a `sleep`). No pause follows the
initial listing fetch itself. -/
theorem claim_C8_pause_follows_other_calls (env : Env) (url : String)
    (imgdir : Option String) (fuel : Nat) (fs : FS) :
    (process_gedore env url imgdir fuel fs).2.2.head? = some (.httpGet url) ∧
    pausedAfterGets (process_gedore env url imgdir fuel fs).2.2.tail := by
  obtain ⟨r, hr, hpr⟩ := listing_trace_shape env url fuel
  unfold process_gedore
  rcases hL : processGedoreListing env url fuel with ⟨res, tr⟩
  rw [hL] at hr
  dsimp only at hr
  subst hr
  cases res with
  | error e => exact ⟨rfl, hpr⟩
  | ok quad =>
    obtain ⟨an, anum, dkm, purls⟩ := quad
    dsimp only
    have hp2 := prodLoop_trace_paused env (urlDomainOf url) imgdir purls GedAcc.empty fs
    rcases hP : prodLoop env (urlDomainOf url) imgdir purls GedAcc.empty fs with ⟨pres, fs1, tr2⟩
    have hp2' : pausedAfterGets tr2 := by rw [hP] at hp2; exact hp2
    cases pres with
    | error e => exact ⟨rfl, pausedAfterGets_append hpr hp2'⟩
    | ok acc => exact ⟨rfl, pausedAfterGets_append hpr hp2'⟩

/-- Witness for `claim_C8_pause_follows_other_calls`: the numbered-pages
run of `env7` starts with the listing request and pauses after every later
request. -/
theorem claim_C8_witness :
    (process_gedore env7 "https://g/cat" none 5 fs0).2.2.head? =
      some (.httpGet "https://g/cat") ∧
    pausedAfterGets (process_gedore env7 "https://g/cat" none 5 fs0).2.2.tail :=
  claim_C8_pause_follows_other_calls env7 "https://g/cat" none 5 fs0
